import Mathlib

/-!
Verification of the annotation placement-and-rendering engine of the
Screenshot Annotator extension (source file `src/extension/content.js`,
class `AnnotationOverlay`).

The shallow embedding below models:
- the annotation record object literal built in `setupCanvasEvents`
  (fields `id`, `text`, `x`, `y`, `pointer_x`, `pointer_y`, `timestamp`);
- the mutable fields of `AnnotationOverlay` that carry placement state
  (`annotations`, `currentAnnotation`, `isAddingAnnotation`, `pendingText`,
  `isActive`, `screenshot`);
- the event handlers `setupCanvasEvents` (click), `startAddingAnnotation`,
  `startAnnotationMode`, `cancel`/`cleanup`;
- the renderer `drawAnnotations` as a list of drawing commands issued to
  the 2D canvas context.

JavaScript numbers are modelled as exact rationals (`ℚ`); the claims under
study do not depend on binary floating-point rounding, except for the
division-by-zero behaviour of the coordinate mapper, which is modelled
separately by `JSNum` (a rational extended with the IEEE special values
`Infinity`, `-Infinity`, `NaN`).

Naming: Lean identifiers mirror the source names; where the source name is
unavailable, a trailing apostrophe is added (`currentAnnotation'` for the
field `currentAnnotation`, `isAddingAnnotation'` for `isAddingAnnotation`,
`startAddingAnnotation'` for the method `startAddingAnnotation`).
DOM-only side effects (status text, cursor shape, clearing the input box,
alert dialogs, removing overlay elements) are outside the model except
that the `alert('Please enter annotation text first')` branch of
`startAddingAnnotation` is surfaced as the error value
`AnnError.emptyText`, and the redraw calls are modelled separately by the
pure command-list renderer.
-/

/-- The annotation record object literal created at the first click in
`setupCanvasEvents` (content.js lines 211-219): `id` is
`Date.now().toString()`, `text` is the pending text, `x`/`y` the label
position, `pointer_x`/`pointer_y` the arrow target position, and
`timestamp` an ISO clock string. The spec calls this entity
AnnotationRecord. -/
structure AnnotationRecord where
  id : String
  text : String
  x : ℚ
  y : ℚ
  pointer_x : ℚ
  pointer_y : ℚ
  timestamp : String
deriving DecidableEq, Repr

/-- The screenshot object handed to `startAnnotationMode` (content.js
lines 26-33): the model keeps only the fields the core reads. A missing
`annotations` property (`screenshot.annotations || []`) is modelled by the
empty list. -/
structure Screenshot where
  imageData : String
  displayWidth : ℚ
  displayHeight : ℚ
  annotations : List AnnotationRecord
deriving DecidableEq, Repr

/-- The result of `canvas.getBoundingClientRect()` as read by the click
and mousemove handlers (content.js lines 205, 250): the displayed
element's on-screen bounding box. -/
structure Rect where
  left : ℚ
  top : ℚ
  width : ℚ
  height : ℚ
deriving DecidableEq, Repr

/-- The mutable fields of `AnnotationOverlay` that carry the placement
state machine (content.js constructor, lines 3-14). `currentAnnotation'`
models `this.currentAnnotation` (`none` = JS `null`),
`isAddingAnnotation'` models `this.isAddingAnnotation`, `pendingText`
models `this.pendingText`, `annotations` models `this.annotations` (the
session's working copy of the AnnotationSet), `screenshot` models
`this.screenshot`, and `isActive` models `this.isActive`. The spec's
PlacementState decodes as: Idle when `isAddingAnnotation' = false` and
`currentAnnotation' = none`; AwaitingLabelClick when
`isAddingAnnotation' = true` and `currentAnnotation' = none`;
AwaitingTargetClick when `currentAnnotation' = some _`. -/
structure OverlayState where
  isActive : Bool
  screenshot : Option Screenshot
  annotations : List AnnotationRecord
  currentAnnotation' : Option AnnotationRecord
  isAddingAnnotation' : Bool
  pendingText : String
deriving DecidableEq, Repr

/-- The constructor's initial field values (content.js lines 3-11). -/
def initState : OverlayState :=
  { isActive := false
    screenshot := none
    annotations := []
    currentAnnotation' := none
    isAddingAnnotation' := false
    pendingText := "" }

/-- `startAnnotationMode(screenshot)` (content.js lines 26-33): stores the
screenshot, adopts its annotation list as the working AnnotationSet with
no validation of any record, and activates the overlay. The DOM work of
`createOverlay`/`showAnnotationUI` is outside the model. -/
def startAnnotationMode (st : OverlayState) (s : Screenshot) : OverlayState :=
  { st with
    screenshot := some s
    annotations := s.annotations
    isActive := true }

/-- One axis of the coordinate mapping in the click handler (content.js
lines 206-207): `(e.clientX - rect.left) * (this.canvas.width /
rect.width)` maps an on-screen position into the canvas's intrinsic
coordinate space. Arguments: the pointer's client position, the bounding
box origin on that axis, the intrinsic canvas size on that axis, and the
bounding box size on that axis. -/
def mapCoord (clientPos boxOrigin intrinsicSize boxSize : ℚ) : ℚ :=
  (clientPos - boxOrigin) * (intrinsicSize / boxSize)

/-- The canvas `click` handler installed by `setupCanvasEvents`
(content.js lines 202-244). Inputs beyond the state: the event's client
coordinates, the canvas bounding box, the canvas intrinsic width and
height (`this.canvas.width`/`.height`), the value of `Date.now()` in
milliseconds, and the ISO string of `new Date()`. When
`isAddingAnnotation` is false the handler returns immediately; otherwise
the first click builds `currentAnnotation` and the second click pushes it
onto `annotations` with the updated pointer position and resets the
placement state. Status-bar text, cursor style and input clearing are
DOM-only and not modelled; the `drawAnnotations()` redraw is modelled by
the separate pure renderer. -/
def handleClick (st : OverlayState) (clientX clientY : ℚ) (rect : Rect)
    (canvasW canvasH : ℚ) (nowMs : ℕ) (iso : String) : OverlayState :=
  if st.isAddingAnnotation' = false then st
  else
    let x := mapCoord clientX rect.left canvasW rect.width
    let y := mapCoord clientY rect.top canvasH rect.height
    match st.currentAnnotation' with
    | none =>
        { st with
          currentAnnotation' := some
            { id := Nat.repr nowMs
              text := st.pendingText
              x := x
              y := y
              pointer_x := x
              pointer_y := y
              timestamp := iso } }
    | some cur =>
        { st with
          annotations := st.annotations ++
            [{ cur with pointer_x := x, pointer_y := y }]
          currentAnnotation' := none
          isAddingAnnotation' := false }

/-- JavaScript `String.prototype.trim()` as called on the text input's
value in `startAddingAnnotation` (content.js line 272): strips leading
and trailing whitespace. Modelled over the string's character list with
`Char.isWhitespace` (space, tab, carriage return, line feed; the extra
Unicode space characters JS also strips play no role in the claims). -/
def jsTrim (s : String) : String :=
  ⟨((s.data.dropWhile Char.isWhitespace).reverse.dropWhile
      Char.isWhitespace).reverse⟩

/-- Error signal for the `alert('Please enter annotation text first')`
branch of `startAddingAnnotation`; the spec names it EmptyTextError. -/
inductive AnnError where
  | emptyText
deriving DecidableEq, Repr

/-- `startAddingAnnotation()` (content.js lines 270-285): trims the text
input's value; when the trimmed text is empty it alerts (modelled as
`some AnnError.emptyText`) and changes nothing, otherwise it stores the
trimmed text as `pendingText` and sets `isAddingAnnotation` to true.
The input's value is passed as the argument `inputValue`. -/
def startAddingAnnotation' (st : OverlayState) (inputValue : String) :
    OverlayState × Option AnnError :=
  let text := jsTrim inputValue
  if text = "" then (st, some AnnError.emptyText)
  else
    ({ st with pendingText := text, isAddingAnnotation' := true }, none)

/-- `cleanup()` (content.js lines 401-412): removes the overlay (DOM) and
resets every mutable field, including the working AnnotationSet
`this.annotations`, to its constructor value. -/
def cleanup (st : OverlayState) : OverlayState :=
  { st with
    isActive := false
    screenshot := none
    annotations := []
    currentAnnotation' := none
    isAddingAnnotation' := false
    pendingText := "" }

/-- `cancel()` (content.js lines 397-399): exactly `this.cleanup()`. -/
def cancel (st : OverlayState) : OverlayState :=
  cleanup st

/-- The external persisted store (`chrome.storage.local`, key
`screenshots`), as read and written by `saveAndExit` (content.js lines
368-395). `cancel` performs no storage call, which the session-level
model below makes explicit. -/
structure World where
  store : List Screenshot
  ov : OverlayState
deriving DecidableEq, Repr

/-- The cancel button at the session level: `cancel()` only runs
`cleanup()`; no `chrome.storage` call occurs, so the persisted store
component is untouched. -/
def cancelW (w : World) : World :=
  { w with ov := cancel w.ov }

/-- The environment of numeric and text primitives the renderer calls:
`Math.atan2`, `Math.cos`, `Math.sin`, the constant `Math.PI`, and the
canvas text measurer `ctx.measureText(...).width` for the font set by the
renderer (`'14px Arial'`). JavaScript numbers are binary floats, hence
rationals, so the environment is a family of rational-valued functions;
the renderer's geometry is stated relative to an arbitrary such
environment. -/
structure MathEnv where
  atan2 : ℚ → ℚ → ℚ
  cos : ℚ → ℚ
  sin : ℚ → ℚ
  pi : ℚ
  measureText : String → ℚ

/-- One drawing command issued to the 2D canvas context, with the style
parameters the source sets (`strokeStyle`/`fillStyle` colour strings,
`lineWidth`). A `beginPath`/`moveTo`/`lineTo`/`stroke` group for one
segment is one `strokeLine`; `arc` plus `fill` is one `fillCircle`;
`fillText` is `fillTextCmd`. -/
inductive DrawCmd where
  | clearRect (x y w h : ℚ)
  | strokeLine (color : String) (lineWidth : ℚ) (x1 y1 x2 y2 : ℚ)
  | fillCircle (color : String) (cx cy r : ℚ)
  | fillRect (color : String) (x y w h : ℚ)
  | strokeRect (color : String) (lineWidth : ℚ) (x y w h : ℚ)
  | fillTextCmd (color : String) (s : String) (x y : ℚ)
deriving DecidableEq, Repr

/-- The command sequence `drawAnnotations` issues for one committed
annotation (content.js lines 292-351): the arrow line from the label
position to the pointer position, the two arrowhead segments at
`angle - PI/6` and `angle + PI/6` (where `angle = atan2(pointer_y - y,
pointer_x - x)`) of fixed length 12, the filled pointer dot of radius 4,
the text background rectangle (measured text width, text height 16,
padding 6, anchored above-left of the label position), its border, and
the text at `(x, y - 4)`. -/
def annotationCmds (E : MathEnv) (a : AnnotationRecord) : List DrawCmd :=
  let angle := E.atan2 (a.pointer_y - a.y) (a.pointer_x - a.x)
  let arrowLength : ℚ := 12
  let textWidth := E.measureText a.text
  let textHeight : ℚ := 16
  let padding : ℚ := 6
  [ DrawCmd.strokeLine "#ff0000" 2 a.x a.y a.pointer_x a.pointer_y,
    DrawCmd.strokeLine "#ff0000" 2 a.pointer_x a.pointer_y
      (a.pointer_x - arrowLength * E.cos (angle - E.pi / 6))
      (a.pointer_y - arrowLength * E.sin (angle - E.pi / 6)),
    DrawCmd.strokeLine "#ff0000" 2 a.pointer_x a.pointer_y
      (a.pointer_x - arrowLength * E.cos (angle + E.pi / 6))
      (a.pointer_y - arrowLength * E.sin (angle + E.pi / 6)),
    DrawCmd.fillCircle "#ff0000" a.pointer_x a.pointer_y 4,
    DrawCmd.fillRect "rgba(255, 255, 255, 0.95)"
      (a.x - padding) (a.y - textHeight - padding)
      (textWidth + padding * 2) (textHeight + padding * 2),
    DrawCmd.strokeRect "#ff0000" 1
      (a.x - padding) (a.y - textHeight - padding)
      (textWidth + padding * 2) (textHeight + padding * 2),
    DrawCmd.fillTextCmd "#000000" a.text a.x (a.y - 4) ]

/-- The in-progress highlight `drawAnnotations` appends when
`currentAnnotation` exists (content.js lines 354-365): a yellow box at
the fixed label position and the pending text. -/
def currentCmds (E : MathEnv) : Option AnnotationRecord → List DrawCmd
  | none => []
  | some cur =>
      [ DrawCmd.fillRect "rgba(255, 255, 0, 0.8)"
          (cur.x - 4) (cur.y - 20) (E.measureText cur.text + 8) 20,
        DrawCmd.fillTextCmd "#000000" cur.text cur.x (cur.y - 4) ]

/-- `drawAnnotations()` (content.js lines 287-366) as the sequence of
commands it issues: first `clearRect(0, 0, canvas.width, canvas.height)`,
then `annotations.forEach(...)` emitting each committed annotation's
commands in list order (modelled by a fold accumulating the issued
commands, mirroring the imperative loop), then the current-annotation
highlight. `canvasW`/`canvasH` are `this.canvas.width`/`.height`. -/
def drawAnnotationsCmds (E : MathEnv) (st : OverlayState)
    (canvasW canvasH : ℚ) : List DrawCmd :=
  (st.annotations.foldl (fun acc a => acc ++ annotationCmds E a)
      [DrawCmd.clearRect 0 0 canvasW canvasH]) ++
    currentCmds E st.currentAnnotation'

/-- Effect of one command on the canvas contents, where the contents are
abstracted as the list of commands whose marks are currently visible: a
`clearRect` covering the whole canvas erases everything, any other
command paints over what is already there. -/
def applyCmd (canvasW canvasH : ℚ) (cv : List DrawCmd) (c : DrawCmd) :
    List DrawCmd :=
  match c with
  | DrawCmd.clearRect x y w h =>
      if x = 0 ∧ y = 0 ∧ w = canvasW ∧ h = canvasH then []
      else cv ++ [DrawCmd.clearRect x y w h]
  | c => cv ++ [c]

/-- The canvas contents after `drawAnnotations()` runs on a canvas whose
prior contents are `prior`. -/
def renderOnto (E : MathEnv) (st : OverlayState) (canvasW canvasH : ℚ)
    (prior : List DrawCmd) : List DrawCmd :=
  (drawAnnotationsCmds E st canvasW canvasH).foldl
    (applyCmd canvasW canvasH) prior

/-- Extended JavaScript number: a finite rational or one of the IEEE
special values `Infinity`, `-Infinity`, `NaN`. Used to model the
coordinate mapper's behaviour when a bounding-box dimension is zero;
finite arithmetic is exact (rounding of in-range results is below the
granularity of the claims under study). -/
inductive JSNum where
  | fin (q : ℚ)
  | posInf
  | negInf
  | nan
deriving DecidableEq, Repr

/-- IEEE subtraction on extended numbers (the model has a single zero, so
the sign of a zero result is not tracked). -/
def JSNum.sub : JSNum → JSNum → JSNum
  | JSNum.fin a, JSNum.fin b => JSNum.fin (a - b)
  | JSNum.fin _, JSNum.posInf => JSNum.negInf
  | JSNum.fin _, JSNum.negInf => JSNum.posInf
  | JSNum.posInf, JSNum.fin _ => JSNum.posInf
  | JSNum.negInf, JSNum.fin _ => JSNum.negInf
  | JSNum.posInf, JSNum.negInf => JSNum.posInf
  | JSNum.negInf, JSNum.posInf => JSNum.negInf
  | JSNum.posInf, JSNum.posInf => JSNum.nan
  | JSNum.negInf, JSNum.negInf => JSNum.nan
  | _, _ => JSNum.nan

/-- IEEE multiplication on extended numbers: zero times an infinity is
`NaN`, otherwise signs multiply. -/
def JSNum.mul : JSNum → JSNum → JSNum
  | JSNum.fin a, JSNum.fin b => JSNum.fin (a * b)
  | JSNum.fin a, JSNum.posInf =>
      if a = 0 then JSNum.nan
      else if 0 < a then JSNum.posInf else JSNum.negInf
  | JSNum.fin a, JSNum.negInf =>
      if a = 0 then JSNum.nan
      else if 0 < a then JSNum.negInf else JSNum.posInf
  | JSNum.posInf, JSNum.fin b =>
      if b = 0 then JSNum.nan
      else if 0 < b then JSNum.posInf else JSNum.negInf
  | JSNum.negInf, JSNum.fin b =>
      if b = 0 then JSNum.nan
      else if 0 < b then JSNum.negInf else JSNum.posInf
  | JSNum.posInf, JSNum.posInf => JSNum.posInf
  | JSNum.negInf, JSNum.negInf => JSNum.posInf
  | JSNum.posInf, JSNum.negInf => JSNum.negInf
  | JSNum.negInf, JSNum.posInf => JSNum.negInf
  | _, _ => JSNum.nan

/-- IEEE division on extended numbers: a nonzero finite number divided by
zero gives a signed infinity, `0 / 0` gives `NaN` (the model has no
negative zero, so the divisor zero is treated as `+0`), a finite number
divided by an infinity gives zero. -/
def JSNum.div : JSNum → JSNum → JSNum
  | JSNum.fin a, JSNum.fin b =>
      if b = 0 then
        if a = 0 then JSNum.nan
        else if 0 < a then JSNum.posInf else JSNum.negInf
      else JSNum.fin (a / b)
  | JSNum.fin _, JSNum.posInf => JSNum.fin 0
  | JSNum.fin _, JSNum.negInf => JSNum.fin 0
  | JSNum.posInf, JSNum.fin b =>
      if 0 ≤ b then JSNum.posInf else JSNum.negInf
  | JSNum.negInf, JSNum.fin b =>
      if 0 ≤ b then JSNum.negInf else JSNum.posInf
  | _, _ => JSNum.nan

/-- Whether an extended number is a finite number (JavaScript
`Number.isFinite`). -/
def JSNum.isFinite : JSNum → Bool
  | JSNum.fin _ => true
  | _ => false

/-- The coordinate-mapping expression of content.js lines 206-207 with
IEEE special-value semantics: `(clientPos - boxOrigin) * (intrinsicSize /
boxSize)`. The source performs the division unconditionally; there is no
guard on `boxSize` anywhere in the repository. -/
def mapCoordJS (clientPos boxOrigin intrinsicSize boxSize : JSNum) : JSNum :=
  JSNum.mul (JSNum.sub clientPos boxOrigin)
    (JSNum.div intrinsicSize boxSize)

/-- Decimal digit characters of a natural number, most significant
first; a structural restatement of the fuel-based `Nat.toDigitsCore`
used by `Nat.repr`, introduced to reason about identifier strings. -/
def decDigits (n : ℕ) : List Char :=
  if n < 10 then [Nat.digitChar n]
  else decDigits (n / 10) ++ [Nat.digitChar (n % 10)]
termination_by n
decreasing_by exact Nat.div_lt_self (by omega) (by norm_num)

/-- Decoding a decimal digit list back to a number. -/
def decodeDec (l : List Char) : ℕ :=
  l.foldl (fun acc c => 10 * acc + (c.toNat - 48)) 0

/-- One externally observable event of an editing session, as dispatched
to the handlers of content.js: a canvas click (with the inputs the click
handler reads: client coordinates, bounding box, `Date.now()` reading,
ISO clock string), a press of the Add Annotation button carrying the
input field's value, or a press of the Cancel button. -/
inductive Ev where
  | click (clientX clientY : ℚ) (rect : Rect) (nowMs : ℕ) (iso : String)
  | startAdd (inputValue : String)
  | cancelEv
deriving DecidableEq, Repr

/-- Dispatch of one event to the corresponding handler. -/
def stepEv (canvasW canvasH : ℚ) (st : OverlayState) : Ev → OverlayState
  | Ev.click cx cy r t iso => handleClick st cx cy r canvasW canvasH t iso
  | Ev.startAdd v => (startAddingAnnotation' st v).1
  | Ev.cancelEv => cancel st

/-- A session run: events processed in order, as the single-threaded DOM
event loop serializes them. -/
def runEvents (canvasW canvasH : ℚ) (st : OverlayState)
    (evs : List Ev) : OverlayState :=
  evs.foldl (stepEv canvasW canvasH) st

/-- The `Date.now()` readings of the click events of a run, in order. -/
def clickTimes : List Ev → List ℕ
  | [] => []
  | Ev.click _ _ _ t _ :: rest => t :: clickTimes rest
  | Ev.startAdd _ :: rest => clickTimes rest
  | Ev.cancelEv :: rest => clickTimes rest

/-- Invariant tying identifier strings to clock readings: the committed
records' ids are the decimal renderings of a strictly increasing list of
past clock readings (all below the bound `b`), and any in-progress
record's id is the rendering of a past reading above all committed
ones. -/
def GoodIds (st : OverlayState) (b : ℕ) : Prop :=
  ∃ ts : List ℕ,
    List.Pairwise (· < ·) ts ∧
    st.annotations.map (fun a => a.id) = ts.map Nat.repr ∧
    (∀ t ∈ ts, t < b) ∧
    ∀ c, st.currentAnnotation' = some c →
      ∃ tc, c.id = Nat.repr tc ∧ tc < b ∧ ∀ t ∈ ts, t < tc

/-- A concrete AwaitingLabelClick session state holding one committed
record in the working AnnotationSet, used to exhibit the effect of
`cancel()` on the set. -/
def c4State : OverlayState :=
  { isActive := true
    screenshot := none
    annotations := [{ id := "1"
                      text := "hello"
                      x := 5
                      y := 5
                      pointer_x := 8
                      pointer_y := 9
                      timestamp := "T0" }]
    currentAnnotation' := none
    isAddingAnnotation' := true
    pendingText := "hello" }

/-- A record violating the spec's validation rules: its text is empty. -/
def c6BadRecord : AnnotationRecord :=
  { id := "bad"
    text := ""
    x := 0
    y := 0
    pointer_x := 0
    pointer_y := 0
    timestamp := "T" }

/-- A stored screenshot whose annotation list contains the invalid
record. -/
def c6BadScreenshot : Screenshot :=
  { imageData := "data:image/png;base64,AAAA"
    displayWidth := 100
    displayHeight := 100
    annotations := [c6BadRecord] }

/-- A session state in which the in-progress record has empty text, used
to exhibit that the commit path performs no validation either. -/
def c6State : OverlayState :=
  { isActive := true
    screenshot := some c6BadScreenshot
    annotations := []
    currentAnnotation' := some c6BadRecord
    isAddingAnnotation' := true
    pendingText := "" }

/-- The in-progress record of the C10 witness scenario: text "old text"
with the label position already fixed at (12, 34). -/
def c10Cur : AnnotationRecord :=
  { id := "8"
    text := "old text"
    x := 12
    y := 34
    pointer_x := 12
    pointer_y := 34
    timestamp := "T8" }

/-- An AwaitingTargetClick session state holding the in-progress record
`c10Cur`. -/
def c10State : OverlayState :=
  { isActive := true
    screenshot := none
    annotations := []
    currentAnnotation' := some c10Cur
    isAddingAnnotation' := true
    pendingText := "old text" }

/-- The click handler is a no-op while `isAddingAnnotation` is false. -/
theorem handleClick_idle {st : OverlayState} (cx cy : ℚ) (r : Rect)
    (W H : ℚ) (t : ℕ) (iso : String)
    (h : st.isAddingAnnotation' = false) :
    handleClick st cx cy r W H t iso = st := by
  simp [handleClick, h]

/-- Shape of the click handler's result on a first click (adding, no
in-progress record): it builds `currentAnnotation` from the pending text
and the mapped click position; nothing is appended. -/
theorem handleClick_first {st : OverlayState} (cx cy : ℚ) (r : Rect)
    (W H : ℚ) (t : ℕ) (iso : String)
    (hA : st.isAddingAnnotation' = true)
    (hC : st.currentAnnotation' = none) :
    handleClick st cx cy r W H t iso =
      { st with
        currentAnnotation' := some
          { id := Nat.repr t
            text := st.pendingText
            x := mapCoord cx r.left W r.width
            y := mapCoord cy r.top H r.height
            pointer_x := mapCoord cx r.left W r.width
            pointer_y := mapCoord cy r.top H r.height
            timestamp := iso } } := by
  rw [handleClick, hA, hC]
  simp

/-- Shape of the click handler's result on a second click (adding, with
an in-progress record): the in-progress record, its pointer position
replaced by the mapped click position, is appended to the working
AnnotationSet and the placement state resets. -/
theorem handleClick_second {st : OverlayState} {cur : AnnotationRecord}
    (cx cy : ℚ) (r : Rect) (W H : ℚ) (t : ℕ) (iso : String)
    (hA : st.isAddingAnnotation' = true)
    (hC : st.currentAnnotation' = some cur) :
    handleClick st cx cy r W H t iso =
      { st with
        annotations := st.annotations ++
          [{ cur with
              pointer_x := mapCoord cx r.left W r.width
              pointer_y := mapCoord cy r.top H r.height }]
        currentAnnotation' := none
        isAddingAnnotation' := false } := by
  rw [handleClick, hA, hC]
  simp

/-- On finite inputs with a nonzero box size, the extended-number mapper
agrees with the exact rational mapper. -/
theorem mapCoordJS_fin (c o s b : ℚ) (hb : b ≠ 0) :
    mapCoordJS (JSNum.fin c) (JSNum.fin o) (JSNum.fin s) (JSNum.fin b) =
      JSNum.fin (mapCoord c o s b) := by
  simp [mapCoordJS, JSNum.sub, JSNum.div, JSNum.mul, hb, mapCoord]

/-- With enough fuel, `Nat.toDigitsCore` in base 10 produces `decDigits`
followed by the accumulator. -/
theorem toDigitsCore_eq_decDigits :
    ∀ (f n : ℕ) (ds : List Char), n < f →
      Nat.toDigitsCore 10 f n ds = decDigits n ++ ds := by
  intro f
  induction f with
  | zero => intro n ds h; omega
  | succ f ih =>
    intro n ds h
    by_cases h10 : n < 10
    · have hdiv : n / 10 = 0 := Nat.div_eq_of_lt h10
      have hmod : n % 10 = n := Nat.mod_eq_of_lt h10
      simp [Nat.toDigitsCore, hdiv, hmod, decDigits, h10]
    · have hdiv : n / 10 ≠ 0 := by
        intro hc
        exact h10 (by omega)
      have hlt : n / 10 < f := by
        have h1 : n / 10 < n := Nat.div_lt_self (by omega) (by norm_num)
        omega
      rw [Nat.toDigitsCore]
      simp only [hdiv, if_false]
      rw [ih (n / 10) _ hlt]
      conv_rhs => rw [decDigits]
      simp [h10]

/-- `Nat.repr` renders exactly the structural digit list. -/
theorem natRepr_eq_decDigits (n : ℕ) :
    Nat.repr n = (decDigits n).asString := by
  unfold Nat.repr Nat.toDigits
  rw [toDigitsCore_eq_decDigits (n + 1) n [] (Nat.lt_succ_self n)]
  simp

/-- Digit characters decode back to their digit. -/
theorem digitChar_toNat_sub (d : ℕ) (h : d < 10) :
    (Nat.digitChar d).toNat - 48 = d := by
  interval_cases d <;> decide

/-- Decoding is a left inverse of the digit rendering. -/
theorem decodeDec_decDigits (n : ℕ) : decodeDec (decDigits n) = n := by
  induction n using Nat.strong_induction_on with
  | _ n ih =>
    by_cases h10 : n < 10
    · rw [decDigits]
      simp only [h10, if_true]
      simp [decodeDec, digitChar_toNat_sub n h10]
    · rw [decDigits]
      simp only [h10, if_false]
      have hlt : n / 10 < n := Nat.div_lt_self (by omega) (by norm_num)
      have hmod : n % 10 < 10 := Nat.mod_lt n (by norm_num)
      unfold decodeDec
      rw [List.foldl_append]
      have hrec := ih (n / 10) hlt
      unfold decodeDec at hrec
      rw [hrec]
      simp only [List.foldl_cons, List.foldl_nil]
      rw [digitChar_toNat_sub (n % 10) hmod]
      omega

/-- The decimal string produced by `Nat.repr` determines the number:
`Date.now().toString()` values collide exactly when the underlying
millisecond readings do. -/
theorem natRepr_injective : Function.Injective Nat.repr := by
  intro m n h
  rw [natRepr_eq_decDigits, natRepr_eq_decDigits] at h
  have hdata : decDigits m = decDigits n := congrArg String.data h
  have := congrArg decodeDec hdata
  rwa [decodeDec_decDigits, decodeDec_decDigits] at this

theorem goodIds_mono {st : OverlayState} {b b' : ℕ}
    (h : GoodIds st b) (hb : b ≤ b') : GoodIds st b' := by
  obtain ⟨ts, h1, h2, h3, h4⟩ := h
  exact ⟨ts, h1, h2, fun t ht => lt_of_lt_of_le (h3 t ht) hb,
    fun c hc => by
      obtain ⟨tc, e1, e2, e3⟩ := h4 c hc
      exact ⟨tc, e1, lt_of_lt_of_le e2 hb, e3⟩⟩

theorem goodIds_startAdd {st : OverlayState} {b : ℕ} (v : String)
    (h : GoodIds st b) : GoodIds (startAddingAnnotation' st v).1 b := by
  obtain ⟨ts, h1, h2, h3, h4⟩ := h
  unfold startAddingAnnotation'
  by_cases hv : jsTrim v = "" <;> simp [hv] <;> exact ⟨ts, h1, h2, h3, h4⟩

theorem goodIds_cancel (st : OverlayState) (b : ℕ) :
    GoodIds (cancel st) b := by
  refine ⟨[], by simp, by simp [cancel, cleanup], by simp, ?_⟩
  intro c hc
  simp [cancel, cleanup] at hc

theorem goodIds_click {st : OverlayState} {b : ℕ}
    (cx cy : ℚ) (r : Rect) (W H : ℚ) (t : ℕ) (iso : String)
    (h : GoodIds st b) (hbt : b ≤ t) :
    GoodIds (handleClick st cx cy r W H t iso) (t + 1) := by
  obtain ⟨ts, h1, h2, h3, h4⟩ := h
  cases hB : st.isAddingAnnotation' with
  | false =>
      rw [handleClick_idle cx cy r W H t iso hB]
      exact goodIds_mono ⟨ts, h1, h2, h3, h4⟩ (by omega)
  | true =>
      cases hcur : st.currentAnnotation' with
      | none =>
          rw [handleClick_first cx cy r W H t iso hB hcur]
          refine ⟨ts, h1, by simpa using h2,
            fun x hx => by have := h3 x hx; omega, ?_⟩
          intro c hc
          simp only [Option.some.injEq] at hc
          refine ⟨t, ?_, by omega, fun x hx => by have := h3 x hx; omega⟩
          rw [← hc]
      | some cur =>
          obtain ⟨tc, e1, e2, e3⟩ := h4 cur hcur
          rw [handleClick_second cx cy r W H t iso hB hcur]
          refine ⟨ts ++ [tc], ?_, ?_, ?_, ?_⟩
          · rw [List.pairwise_append]
            exact ⟨h1, by simp, by simpa using e3⟩
          · simp [h2, e1]
          · intro x hx
            rcases List.mem_append.mp hx with hx | hx
            · have := h3 x hx; omega
            · simp at hx; omega
          · intro c hc
            simp at hc

/-- Processing a run preserves the identifier invariant when the click
clock readings respect the bound and strictly increase. -/
theorem runEvents_good (W H : ℚ) :
    ∀ (evs : List Ev) (st : OverlayState) (b : ℕ),
      GoodIds st b →
      (∀ t ∈ clickTimes evs, b ≤ t) →
      List.Pairwise (· < ·) (clickTimes evs) →
      ∃ b', GoodIds (runEvents W H st evs) b' := by
  intro evs
  induction evs with
  | nil => intro st b h _ _; exact ⟨b, h⟩
  | cons e rest ih =>
    intro st b h hlb hpw
    cases e with
    | click cx cy r t iso =>
        simp only [clickTimes] at hlb hpw
        have hbt : b ≤ t := hlb t (List.mem_cons_self _ _)
        rcases List.pairwise_cons.mp hpw with ⟨hhead, htail⟩
        have h' := goodIds_click cx cy r W H t iso h hbt
        simp only [runEvents, List.foldl_cons]
        exact ih _ (t + 1) h'
          (fun x hx => by have := hhead x hx; omega) htail
    | startAdd v =>
        simp only [clickTimes] at hlb hpw
        simp only [runEvents, List.foldl_cons]
        exact ih _ b (goodIds_startAdd v h) hlb hpw
    | cancelEv =>
        simp only [clickTimes] at hlb hpw
        simp only [runEvents, List.foldl_cons]
        exact ih _ b (goodIds_cancel st b) hlb hpw

/-- Accumulating a list of command blocks with an imperative fold is the
initial contents followed by the blocks in list order. -/
theorem foldl_append_eq_bind {α β : Type} :
    ∀ (l : List α) (init : List β) (f : α → List β),
      l.foldl (fun acc a => acc ++ f a) init = init ++ l.flatMap f := by
  intro l
  induction l with
  | nil => intro init f; simp
  | cons a l ih =>
    intro init f
    simp only [List.foldl_cons, List.flatMap_cons]
    rw [ih]
    simp [List.append_assoc]

/-- C7: for every committed annotation the renderer issues, in order, the
arrow line from the label position to the target position; the two
arrowhead segments splayed at `angle - PI/6` and `angle + PI/6` (where
`angle` is the arctangent of the label-to-target direction) with the
fixed length 12 independent of the annotation; the filled circle marker
of radius 4 at the target; the opaque background rectangle sized from the
measured text width plus the fixed padding 6, anchored above-left of the
label position; the border stroke around that rectangle; and the text at
the label position. The full layer draws the committed annotations in
AnnotationSet order after the initial clear, so later annotations draw
over earlier ones. -/
theorem c7_render_order (E : MathEnv) (a : AnnotationRecord)
    (st : OverlayState) (canvasW canvasH : ℚ) :
    annotationCmds E a =
      [ DrawCmd.strokeLine "#ff0000" 2 a.x a.y a.pointer_x a.pointer_y,
        DrawCmd.strokeLine "#ff0000" 2 a.pointer_x a.pointer_y
          (a.pointer_x - 12 * E.cos
            (E.atan2 (a.pointer_y - a.y) (a.pointer_x - a.x) - E.pi / 6))
          (a.pointer_y - 12 * E.sin
            (E.atan2 (a.pointer_y - a.y) (a.pointer_x - a.x) - E.pi / 6)),
        DrawCmd.strokeLine "#ff0000" 2 a.pointer_x a.pointer_y
          (a.pointer_x - 12 * E.cos
            (E.atan2 (a.pointer_y - a.y) (a.pointer_x - a.x) + E.pi / 6))
          (a.pointer_y - 12 * E.sin
            (E.atan2 (a.pointer_y - a.y) (a.pointer_x - a.x) + E.pi / 6)),
        DrawCmd.fillCircle "#ff0000" a.pointer_x a.pointer_y 4,
        DrawCmd.fillRect "rgba(255, 255, 255, 0.95)"
          (a.x - 6) (a.y - 16 - 6)
          (E.measureText a.text + 6 * 2) (16 + 6 * 2),
        DrawCmd.strokeRect "#ff0000" 1
          (a.x - 6) (a.y - 16 - 6)
          (E.measureText a.text + 6 * 2) (16 + 6 * 2),
        DrawCmd.fillTextCmd "#000000" a.text a.x (a.y - 4) ] ∧
    drawAnnotationsCmds E st canvasW canvasH =
      DrawCmd.clearRect 0 0 canvasW canvasH ::
        (st.annotations.flatMap (annotationCmds E) ++
          currentCmds E st.currentAnnotation') := by
  constructor
  · rfl
  · rw [drawAnnotationsCmds, foldl_append_eq_bind]
    simp

/-- C8: the renderer is deterministic and self-contained: the canvas
contents after `drawAnnotations()` depend only on the (AnnotationSet,
PlacementState) inputs and never on what was previously drawn, because
the command sequence begins with a full-canvas clear; in particular two
renders with identical inputs produce identical output. -/
theorem c8_render_deterministic (E : MathEnv) (st : OverlayState)
    (canvasW canvasH : ℚ) (prior1 prior2 : List DrawCmd) :
    renderOnto E st canvasW canvasH prior1 =
      renderOnto E st canvasW canvasH prior2 ∧
    (drawAnnotationsCmds E st canvasW canvasH).head? =
      some (DrawCmd.clearRect 0 0 canvasW canvasH) := by
  have hsplit : drawAnnotationsCmds E st canvasW canvasH =
      DrawCmd.clearRect 0 0 canvasW canvasH ::
        (st.annotations.flatMap (annotationCmds E) ++
          currentCmds E st.currentAnnotation') := by
    rw [drawAnnotationsCmds, foldl_append_eq_bind]
    simp
  constructor
  · rw [renderOnto, renderOnto, hsplit]
    simp only [List.foldl_cons]
    have hclear : ∀ prior : List DrawCmd,
        applyCmd canvasW canvasH prior
          (DrawCmd.clearRect 0 0 canvasW canvasH) = [] := by
      intro prior
      simp [applyCmd]
    rw [hclear, hclear]
  · rw [hsplit]
    rfl

/-- C9 (amended): identifiers are `Date.now().toString()` at the
placement's first click, so they are only as distinct as the clock: in a
session starting from an empty working AnnotationSet, if the `Date.now()`
readings of the clicks strictly increase then the committed records'
identifiers are the decimal renderings of a strictly increasing sequence
of clock readings — hence pairwise distinct and ordered consistently with
creation order; two commits that share a millisecond reading receive the
identical identifier (see the counterexample). -/
theorem c9_ids_distinct_monotone (canvasW canvasH : ℚ) (evs : List Ev)
    (hmono : List.Pairwise (· < ·) (clickTimes evs)) :
    ∃ ts : List ℕ,
      List.Pairwise (· < ·) ts ∧
      ((runEvents canvasW canvasH initState evs).annotations.map
          (fun a => a.id)) = ts.map Nat.repr ∧
      ((runEvents canvasW canvasH initState evs).annotations.map
          (fun a => a.id)).Nodup := by
  have h0 : GoodIds initState 0 := by
    refine ⟨[], by simp, by simp [initState], by simp, ?_⟩
    intro c hc
    simp [initState] at hc
  obtain ⟨b', hg⟩ := runEvents_good canvasW canvasH evs initState 0 h0
    (fun _ _ => Nat.zero_le _) hmono
  obtain ⟨ts, h1, h2, h3, h4⟩ := hg
  refine ⟨ts, h1, h2, ?_⟩
  rw [h2]
  have hnd : ts.Nodup := h1.imp (fun h => ne_of_lt h)
  exact hnd.map natRepr_injective

/-- Witness for the amended C9 statement: a concrete session with two
placements whose four clicks carry strictly increasing clock readings. -/
theorem c9_ids_distinct_monotone_witness :
    List.Pairwise (· < ·) (clickTimes
      [Ev.startAdd "first", Ev.click 10 10 ⟨0, 0, 100, 100⟩ 1001 "T1",
       Ev.click 20 20 ⟨0, 0, 100, 100⟩ 1002 "T2", Ev.startAdd "second",
       Ev.click 30 30 ⟨0, 0, 100, 100⟩ 1003 "T3",
       Ev.click 40 40 ⟨0, 0, 100, 100⟩ 1004 "T4"]) ∧
    ∃ ts : List ℕ,
      List.Pairwise (· < ·) ts ∧
      ((runEvents 100 100 initState
          [Ev.startAdd "first", Ev.click 10 10 ⟨0, 0, 100, 100⟩ 1001 "T1",
           Ev.click 20 20 ⟨0, 0, 100, 100⟩ 1002 "T2", Ev.startAdd "second",
           Ev.click 30 30 ⟨0, 0, 100, 100⟩ 1003 "T3",
           Ev.click 40 40 ⟨0, 0, 100, 100⟩ 1004 "T4"]).annotations.map
          (fun a => a.id)) = ts.map Nat.repr ∧
      ((runEvents 100 100 initState
          [Ev.startAdd "first", Ev.click 10 10 ⟨0, 0, 100, 100⟩ 1001 "T1",
           Ev.click 20 20 ⟨0, 0, 100, 100⟩ 1002 "T2", Ev.startAdd "second",
           Ev.click 30 30 ⟨0, 0, 100, 100⟩ 1003 "T3",
           Ev.click 40 40 ⟨0, 0, 100, 100⟩ 1004 "T4"]).annotations.map
          (fun a => a.id)).Nodup :=
  ⟨by decide, c9_ids_distinct_monotone 100 100 _ (by decide)⟩

/-- C9 (counterexample): two placements whose clicks all happen within
the same `Date.now()` millisecond (reading 7) commit two records with the
identical identifier "7" — identifiers can collide within one
AnnotationSet. -/
theorem c9_counterexample :
    ((runEvents 100 100 initState
        [Ev.startAdd "first", Ev.click 10 10 ⟨0, 0, 100, 100⟩ 7 "T1",
         Ev.click 20 20 ⟨0, 0, 100, 100⟩ 7 "T2", Ev.startAdd "second",
         Ev.click 30 30 ⟨0, 0, 100, 100⟩ 7 "T3",
         Ev.click 40 40 ⟨0, 0, 100, 100⟩ 7 "T4"]).annotations.map
        (fun a => a.id)) = ["7", "7"] ∧
    ¬ ((runEvents 100 100 initState
        [Ev.startAdd "first", Ev.click 10 10 ⟨0, 0, 100, 100⟩ 7 "T1",
         Ev.click 20 20 ⟨0, 0, 100, 100⟩ 7 "T2", Ev.startAdd "second",
         Ev.click 30 30 ⟨0, 0, 100, 100⟩ 7 "T3",
         Ev.click 40 40 ⟨0, 0, 100, 100⟩ 7 "T4"]).annotations.map
        (fun a => a.id)).Nodup := by
  constructor <;> decide

/-- Effect of `startAddingAnnotation` on the state when the trimmed input
text is nonempty. -/
theorem startAdding_nonempty {st : OverlayState} {v : String}
    (hv : jsTrim v ≠ "") :
    startAddingAnnotation' st v =
      ({ st with pendingText := jsTrim v, isAddingAnnotation' := true },
        none) := by
  simp [startAddingAnnotation', hv]

/-- C1: from an Idle state, starting a placement with text `v` and then
clicking twice appends exactly one record to the working AnnotationSet:
its text is the (trimmed) text fixed when the placement was started, its
label position is the mapped position of the first click, its target
position is the mapped position of the second click, and afterwards the
placement state is Idle (no in-progress record, not adding). The state
after the first click is AwaitingTargetClick (an in-progress record
exists). -/
theorem c1_commit_atomicity (st : OverlayState) (v : String)
    (c1x c1y c2x c2y : ℚ) (r1 r2 : Rect) (W H : ℚ)
    (t1 t2 : ℕ) (iso1 iso2 : String)
    (hIdleAdd : st.isAddingAnnotation' = false)
    (hIdleCur : st.currentAnnotation' = none)
    (hv : jsTrim v ≠ "") :
    (handleClick (startAddingAnnotation' st v).1 c1x c1y r1 W H t1
        iso1).currentAnnotation' ≠ none ∧
    (handleClick (handleClick (startAddingAnnotation' st v).1 c1x c1y r1 W H
        t1 iso1) c2x c2y r2 W H t2 iso2).annotations =
      st.annotations ++
        [{ id := Nat.repr t1
           text := jsTrim v
           x := mapCoord c1x r1.left W r1.width
           y := mapCoord c1y r1.top H r1.height
           pointer_x := mapCoord c2x r2.left W r2.width
           pointer_y := mapCoord c2y r2.top H r2.height
           timestamp := iso1 }] ∧
    (handleClick (handleClick (startAddingAnnotation' st v).1 c1x c1y r1 W H
        t1 iso1) c2x c2y r2 W H t2 iso2).annotations.length =
      st.annotations.length + 1 ∧
    (handleClick (handleClick (startAddingAnnotation' st v).1 c1x c1y r1 W H
        t1 iso1) c2x c2y r2 W H t2 iso2).currentAnnotation' = none ∧
    (handleClick (handleClick (startAddingAnnotation' st v).1 c1x c1y r1 W H
        t1 iso1) c2x c2y r2 W H t2 iso2).isAddingAnnotation' = false := by
  have h1 : (startAddingAnnotation' st v).1 =
      { st with pendingText := jsTrim v, isAddingAnnotation' := true } := by
    rw [startAdding_nonempty hv]
  rw [h1]
  simp [handleClick_first, handleClick_second, hIdleCur]

/-- Witness for C1 at the spec's example scenario: `startPlacement("Bug
here")`, click at client (120, 80), click at client (300, 200), over a
bounding box at the origin with size equal to the intrinsic canvas size
(so the mapping is the identity): exactly one record `{text := "Bug
here", label := (120, 80), target := (300, 200)}` is appended and the
state is Idle. -/
theorem c1_commit_atomicity_witness :
    initState.isAddingAnnotation' = false ∧
    initState.currentAnnotation' = none ∧
    jsTrim "Bug here" ≠ "" ∧
    ((handleClick (startAddingAnnotation' initState "Bug here").1 120 80
        ⟨0, 0, 400, 400⟩ 400 400 1000 "T1").currentAnnotation' ≠ none ∧
    (handleClick (handleClick (startAddingAnnotation' initState
        "Bug here").1 120 80 ⟨0, 0, 400, 400⟩ 400 400 1000 "T1") 300 200
        ⟨0, 0, 400, 400⟩ 400 400 2000 "T2").annotations =
      initState.annotations ++
        [{ id := Nat.repr 1000
           text := jsTrim "Bug here"
           x := mapCoord 120 (0 : ℚ) 400 400
           y := mapCoord 80 (0 : ℚ) 400 400
           pointer_x := mapCoord 300 (0 : ℚ) 400 400
           pointer_y := mapCoord 200 (0 : ℚ) 400 400
           timestamp := "T1" }] ∧
    (handleClick (handleClick (startAddingAnnotation' initState
        "Bug here").1 120 80 ⟨0, 0, 400, 400⟩ 400 400 1000 "T1") 300 200
        ⟨0, 0, 400, 400⟩ 400 400 2000 "T2").annotations.length =
      initState.annotations.length + 1 ∧
    (handleClick (handleClick (startAddingAnnotation' initState
        "Bug here").1 120 80 ⟨0, 0, 400, 400⟩ 400 400 1000 "T1") 300 200
        ⟨0, 0, 400, 400⟩ 400 400 2000 "T2").currentAnnotation' = none ∧
    (handleClick (handleClick (startAddingAnnotation' initState
        "Bug here").1 120 80 ⟨0, 0, 400, 400⟩ 400 400 1000 "T1") 300 200
        ⟨0, 0, 400, 400⟩ 400 400 2000 "T2").isAddingAnnotation' = false) :=
  ⟨rfl, rfl, by decide,
    c1_commit_atomicity initState "Bug here" 120 80 300 200
      ⟨0, 0, 400, 400⟩ ⟨0, 0, 400, 400⟩ 400 400 1000 2000 "T1" "T2"
      rfl rfl (by decide)⟩

/-- C2: per axis, the coordinate mapping computes exactly
`(screenPos - boxOrigin) * (intrinsicSize / boxSize)` in exact rational
arithmetic (the source applies no rounding step), and for a nonzero box
size the box's origin maps to 0 and the box's far edge (origin plus box
size) maps to the intrinsic size; instantiating the axis at x and y gives
the corner properties: top-left maps to (0, 0), bottom-right maps to
(intrinsicWidth, intrinsicHeight). -/
theorem c2_coordinate_mapping (clientPos boxOrigin intrinsicSize boxSize : ℚ)
    (h : boxSize ≠ 0) :
    mapCoord clientPos boxOrigin intrinsicSize boxSize =
      (clientPos - boxOrigin) * (intrinsicSize / boxSize) ∧
    mapCoord boxOrigin boxOrigin intrinsicSize boxSize = 0 ∧
    mapCoord (boxOrigin + boxSize) boxOrigin intrinsicSize boxSize =
      intrinsicSize := by
  refine ⟨rfl, by simp [mapCoord], ?_⟩
  rw [mapCoord, add_sub_cancel_left, mul_comm, div_mul_cancel₀ _ h]

/-- Witness for C2 at a concrete box (origin 20, size 50, intrinsic size
200). -/
theorem c2_coordinate_mapping_witness :
    (50 : ℚ) ≠ 0 ∧
    (mapCoord 45 20 200 50 = (45 - 20) * (200 / 50) ∧
     mapCoord 20 20 200 50 = 0 ∧
     mapCoord (20 + 50) 20 200 50 = 200) :=
  ⟨by norm_num, c2_coordinate_mapping 45 20 200 50 (by norm_num)⟩

/-- C3: from Idle, starting a placement with text that trims to empty
fails with the empty-text error and returns the state itself (placement
state and AnnotationSet unchanged); starting with nonempty trimmed text
is the event that advances the state (it sets the adding flag, raises no
error and leaves the AnnotationSet unchanged); a pointer click while Idle
returns the state itself (no-op, and the click handler has no error
path); and `cancel()` from Idle leaves the placement state Idle. -/
theorem c3_state_machine_totality (st : OverlayState) (v : String)
    (cx cy : ℚ) (r : Rect) (W H : ℚ) (t : ℕ) (iso : String)
    (hIdleAdd : st.isAddingAnnotation' = false) :
    (jsTrim v = "" →
      startAddingAnnotation' st v = (st, some AnnError.emptyText)) ∧
    (jsTrim v ≠ "" →
      (startAddingAnnotation' st v).1.isAddingAnnotation' = true ∧
      (startAddingAnnotation' st v).1.annotations = st.annotations ∧
      (startAddingAnnotation' st v).2 = none) ∧
    handleClick st cx cy r W H t iso = st ∧
    (cancel st).isAddingAnnotation' = false ∧
    (cancel st).currentAnnotation' = none := by
  refine ⟨?_, ?_, handleClick_idle cx cy r W H t iso hIdleAdd, rfl, rfl⟩
  · intro hv
    simp [startAddingAnnotation', hv]
  · intro hv
    rw [startAdding_nonempty hv]
    exact ⟨rfl, rfl, rfl⟩

/-- Witness for C3 at the initial (Idle) state with the whitespace-only
text "  " (which trims to empty) for the failing branch; the nonempty
branch and the stray click are exercised at the same state. -/
theorem c3_state_machine_totality_witness :
    initState.isAddingAnnotation' = false ∧
    ((jsTrim "  " = "" →
      startAddingAnnotation' initState "  " =
        (initState, some AnnError.emptyText)) ∧
    (jsTrim "  " ≠ "" →
      (startAddingAnnotation' initState "  ").1.isAddingAnnotation' = true ∧
      (startAddingAnnotation' initState "  ").1.annotations =
        initState.annotations ∧
      (startAddingAnnotation' initState "  ").2 = none) ∧
    handleClick initState 10 10 ⟨0, 0, 100, 100⟩ 100 100 5 "T" =
      initState ∧
    (cancel initState).isAddingAnnotation' = false ∧
    (cancel initState).currentAnnotation' = none) :=
  ⟨rfl, c3_state_machine_totality initState "  " 10 10 ⟨0, 0, 100, 100⟩
    100 100 5 "T" rfl⟩

/-- C4 (counterexample): `cancel()` runs `cleanup()`, which resets
`this.annotations = []`; from an AwaitingLabelClick state whose working
AnnotationSet holds one record, cancelling changes the set's length from
1 to 0, so the length is not left unchanged. -/
theorem c4_counterexample :
    (cancel c4State).annotations.length ≠ c4State.annotations.length := by
  decide

/-- C4 (amended): `cancel()` returns the placement state to Idle,
discards the pending text and the in-progress record, and never commits
a record; however it ends the session by resetting the working
AnnotationSet to empty (rather than leaving its length unchanged), while
making no write to the persisted store. -/
theorem c4_cancel_never_commits (w : World) :
    (cancelW w).store = w.store ∧
    (cancelW w).ov.isAddingAnnotation' = false ∧
    (cancelW w).ov.currentAnnotation' = none ∧
    (cancelW w).ov.pendingText = "" ∧
    (cancelW w).ov.annotations = [] :=
  ⟨rfl, rfl, rfl, rfl, rfl⟩

/-- C5 (counterexample): with a bounding box of width 0, the mapper of
content.js lines 206-207 raises no error and silently produces the
non-finite coordinate `Infinity` (client position 120, box origin 20,
intrinsic size 100). No `DegenerateSurfaceError` (nor any zero-size
check) exists anywhere in the repository. -/
theorem c5_counterexample :
    mapCoordJS (JSNum.fin 120) (JSNum.fin 20) (JSNum.fin 100)
      (JSNum.fin 0) = JSNum.posInf ∧
    (mapCoordJS (JSNum.fin 120) (JSNum.fin 20) (JSNum.fin 100)
      (JSNum.fin 0)).isFinite = false := by
  constructor <;>
    norm_num [mapCoordJS, JSNum.sub, JSNum.div, JSNum.mul, JSNum.isFinite]

/-- C5 (amended): for every finite client position, box origin and
intrinsic size, a mapping request against a zero bounding-box dimension
performs no check and raises no error: it always yields a non-finite
value (`Infinity`, `-Infinity` or `NaN`) as the coordinate. -/
theorem c5_degenerate_no_error (c o s : ℚ) :
    (mapCoordJS (JSNum.fin c) (JSNum.fin o) (JSNum.fin s)
      (JSNum.fin 0)).isFinite = false := by
  have hdiv : JSNum.div (JSNum.fin s) (JSNum.fin 0) =
      if s = 0 then JSNum.nan
      else if 0 < s then JSNum.posInf else JSNum.negInf := by
    simp [JSNum.div]
  unfold mapCoordJS
  rw [hdiv]
  split_ifs with h1 h2
  · rfl
  · show (JSNum.mul (JSNum.fin (c - o)) JSNum.posInf).isFinite = false
    simp only [JSNum.mul]
    split_ifs <;> rfl
  · show (JSNum.mul (JSNum.fin (c - o)) JSNum.negInf).isFinite = false
    simp only [JSNum.mul]
    split_ifs <;> rfl

/-- C6 (counterexample): no validation exists in the repository: loading
a stored screenshot whose annotation list contains a record with empty
text puts that record straight into the working AnnotationSet — no
`InvalidAnnotationError` is raised and the invalid record enters the
set. -/
theorem c6_counterexample :
    c6BadRecord.text = "" ∧
    (startAnnotationMode initState c6BadScreenshot).annotations =
      [c6BadRecord] :=
  ⟨rfl, rfl⟩

/-- C6 (amended): records are accepted with no validation at either
boundary: a loaded screenshot's annotation list is adopted wholesale
(whatever its records' texts or positions), and the commit path appends
the in-progress record unconditionally — there is no check of text
nonemptiness or position finiteness, and in particular off-canvas
positions are also accepted. -/
theorem c6_no_validation (st : OverlayState) (s : Screenshot)
    (cx cy : ℚ) (r : Rect) (W H : ℚ) (t : ℕ) (iso : String)
    (cur : AnnotationRecord)
    (hA : st.isAddingAnnotation' = true)
    (hC : st.currentAnnotation' = some cur) :
    (startAnnotationMode st s).annotations = s.annotations ∧
    (handleClick st cx cy r W H t iso).annotations =
      st.annotations ++
        [{ cur with
            pointer_x := mapCoord cx r.left W r.width
            pointer_y := mapCoord cy r.top H r.height }] := by
  refine ⟨rfl, ?_⟩
  rw [handleClick_second cx cy r W H t iso hA hC]

/-- Witness for the amended C6 at the session state whose in-progress
record has empty text: the commit still appends it. -/
theorem c6_no_validation_witness :
    c6State.isAddingAnnotation' = true ∧
    c6State.currentAnnotation' = some c6BadRecord ∧
    ((startAnnotationMode c6State c6BadScreenshot).annotations =
      c6BadScreenshot.annotations ∧
    (handleClick c6State 10 10 ⟨0, 0, 100, 100⟩ 100 100 5 "T").annotations =
      c6State.annotations ++
        [{ c6BadRecord with
            pointer_x := mapCoord 10 (0 : ℚ) 100 100
            pointer_y := mapCoord 10 (0 : ℚ) 100 100 }]) :=
  ⟨rfl, rfl, c6_no_validation c6State c6BadScreenshot 10 10
    ⟨0, 0, 100, 100⟩ 100 100 5 "T" c6BadRecord rfl rfl⟩

/-- C10: invoking `startAddingAnnotation` while an annotation is already
in progress (AwaitingTargetClick: a label position has been fixed in the
in-progress record) leaves the in-progress record untouched — the next
click commits it with its originally fixed text and label position — and
the newly entered trimmed text only replaces the pending text used for
subsequent placements. -/
theorem c10_start_while_placing (st : OverlayState) (v : String)
    (cur : AnnotationRecord) (cx cy : ℚ) (r : Rect) (W H : ℚ)
    (t : ℕ) (iso : String)
    (hA : st.isAddingAnnotation' = true)
    (hC : st.currentAnnotation' = some cur)
    (hv : jsTrim v ≠ "") :
    (startAddingAnnotation' st v).1.currentAnnotation' = some cur ∧
    (startAddingAnnotation' st v).1.pendingText = jsTrim v ∧
    (startAddingAnnotation' st v).1.isAddingAnnotation' = true ∧
    (handleClick (startAddingAnnotation' st v).1 cx cy r W H t
        iso).annotations =
      st.annotations ++
        [{ cur with
            pointer_x := mapCoord cx r.left W r.width
            pointer_y := mapCoord cy r.top H r.height }] ∧
    (handleClick (startAddingAnnotation' st v).1 cx cy r W H t
        iso).currentAnnotation' = none := by
  rw [startAdding_nonempty hv]
  simp [handleClick_second, hC]

/-- Witness for C10: a placement of "old text" whose label is already
fixed; entering "new text" mid-placement leaves the in-progress record
intact and the next click commits it with "old text". -/
theorem c10_start_while_placing_witness :
    c10State.isAddingAnnotation' = true ∧
    c10State.currentAnnotation' = some c10Cur ∧
    jsTrim "new text" ≠ "" ∧
    ((startAddingAnnotation' c10State "new text").1.currentAnnotation' =
      some c10Cur ∧
    (startAddingAnnotation' c10State "new text").1.pendingText =
      jsTrim "new text" ∧
    (startAddingAnnotation' c10State "new text").1.isAddingAnnotation' =
      true ∧
    (handleClick (startAddingAnnotation' c10State "new text").1 30 40
        ⟨0, 0, 100, 100⟩ 100 100 9 "T9").annotations =
      c10State.annotations ++
        [{ c10Cur with
            pointer_x := mapCoord 30 (0 : ℚ) 100 100
            pointer_y := mapCoord 40 (0 : ℚ) 100 100 }] ∧
    (handleClick (startAddingAnnotation' c10State "new text").1 30 40
        ⟨0, 0, 100, 100⟩ 100 100 9 "T9").currentAnnotation' = none) :=
  ⟨rfl, rfl, by decide,
    c10_start_while_placing c10State "new text" c10Cur 30 40
      ⟨0, 0, 100, 100⟩ 100 100 9 "T9" rfl rfl (by decide)⟩
